import Mathlib

/-!
Verification of the natural-language-to-SQL query pipeline of the
Indore Smart City Challan Chatbot server
(`Server/modules/Agent/agent_service.py`).

The Python functions are shallowly embedded as executable Lean
definitions.  Python strings are modelled as Lean `String`
(lists of unicode scalar values); `str.lower()` is modelled
ASCII-wise, which is exact for every call site in this file because
the lowered characters are always drawn from `[A-Za-z0-9_]` or
compared against ASCII keywords.  Python `float` values are modelled
as exact rationals (`Rat`); every conversion exercised here
(`float(int)`, parsing of decimal literals) is exact, so no rounding
behaviour is relied upon.  Database calls and generative-model calls
are modelled as oracle parameters (a call either returns a value or
raises, i.e. `Option`/`Except`).
-/

/-! ## Python string primitives -/

/-- Model of Python `str.strip()` (no arguments): trim leading and
trailing whitespace (ASCII whitespace model: space, tab, carriage
return, newline). -/
def pyStripChars (cs : List Char) : List Char :=
  ((cs.dropWhile Char.isWhitespace).reverse.dropWhile Char.isWhitespace).reverse

/-- Model of Python `str.strip()` on strings. -/
def pyStrip (s : String) : String := String.mk (pyStripChars s.data)

/-- Model of Python `str.lower()` restricted to ASCII (exact for all
uses in this development, see the module docstring). -/
def pyLower (s : String) : String := String.mk (s.data.map Char.toLower)

/-- Boolean test that `small` is a prefix of the character list `l`. -/
def listStartsWith : List Char → List Char → Bool
  | [], _ => true
  | _ :: _, [] => false
  | a :: as, b :: bs => a = b && listStartsWith as bs

/-- Boolean test that the character list `needle` occurs inside `hay`
(model of Python `needle in hay` for strings). -/
def listContainsSeq (needle : List Char) : List Char → Bool
  | [] => needle.isEmpty
  | b :: bs => listStartsWith needle (b :: bs) || listContainsSeq needle bs

/-- Model of Python `needle in hay` (substring containment). -/
def pyContains (hay needle : String) : Bool := listContainsSeq needle.data hay.data

/-- Model of Python `s.startswith(pre)`. -/
def pyStartsWith (s pre : String) : Bool := listStartsWith pre.data s.data

/-- Worker for Python `s.replace(pat, rep)`: left-to-right,
non-overlapping; the fuel argument (instantiated with the input
length) only makes the recursion structural and never runs out. -/
def replaceSeqAux (pat rep : List Char) : Nat → List Char → List Char
  | _, [] => []
  | 0, l => l
  | fuel + 1, c :: cs =>
    if listStartsWith pat (c :: cs) then
      rep ++ replaceSeqAux pat rep fuel (List.drop (pat.length - 1) cs)
    else c :: replaceSeqAux pat rep fuel cs

/-- Model of Python `s.replace(pat, rep)` for non-empty `pat` (every
pattern in this file is a non-empty literal). -/
def pyReplace (s pat rep : String) : String :=
  String.mk (replaceSeqAux pat.data rep.data s.data.length s.data)

/-- Model of Python `s.rstrip(';')`: drop trailing semicolons. -/
def pyRstripSemi (s : String) : String :=
  String.mk ((s.data.reverse.dropWhile (fun c => c = ';')).reverse)

/-- Model of Python `s[:n]` for a non-negative `n`. -/
def pySliceTo (n : Nat) (s : String) : String := String.mk (s.data.take n)

/-- Worker for Python `s.split("\n")`: empty pieces are kept. -/
def splitNLAux : List Char → List Char → List (List Char)
  | [], acc => [acc.reverse]
  | c :: cs, acc =>
    if c = '\n' then acc.reverse :: splitNLAux cs [] else splitNLAux cs (c :: acc)

/-- Model of Python `s.split("\n")`. -/
def pySplitNL (s : String) : List String := (splitNLAux s.data []).map String.mk

/-- Model of Python `"\n".join(l)`. -/
def pyJoinNL (l : List String) : String := String.intercalate "\n" l

/-- Model of Python `str.title()`: a letter is upper-cased when the
previous character is not a letter, lower-cased otherwise (digits and
other characters are kept and reset the word boundary). -/
def pyTitleAux : Bool → List Char → List Char
  | _, [] => []
  | prevAlpha, c :: cs =>
    (if c.isAlpha then (if prevAlpha then c.toLower else c.toUpper) else c)
      :: pyTitleAux c.isAlpha cs

/-- Model of Python `str.title()`. -/
def pyTitle (s : String) : String := String.mk (pyTitleAux false s.data)

/-! ## Identifier sanitizer (`_sanitize_table_name`, `_sanitize_column_name`) -/

/-- Model of `re.sub(r'[^a-zA-Z0-9_]', '_', name)`: every character
outside `[A-Za-z0-9_]` becomes `'_'`.  `Char.isAlphanum` is exactly the
ASCII class `[A-Za-z0-9]`, so this is exact for arbitrary unicode
input. -/
def pySubUnsafe (cs : List Char) : List Char :=
  cs.map (fun c => if c.isAlphanum || c = '_' then c else '_')

/-- Model of Python `s.strip('_')`: drop leading and trailing
underscores. -/
def stripUnderscores (cs : List Char) : List Char :=
  (((cs.dropWhile (fun c => c = '_')).reverse.dropWhile (fun c => c = '_')).reverse)

/-- The prefixing step `if sanitized and not sanitized[0].isalpha():
sanitized = tag + sanitized` — note that the guard requires a
non-empty string, so the empty string is left unprefixed. -/
def sanitizePrefixStep (tag : List Char) : List Char → List Char
  | [] => []
  | c :: rest => if ¬ c.isAlpha then tag ++ (c :: rest) else c :: rest

/-- The truncation step `if len(sanitized) > 64: sanitized[:64]`. -/
def sanitizeTruncate (s : List Char) : List Char :=
  if 64 < s.length then s.take 64 else s

/-- Common core of `_sanitize_table_name` and `_sanitize_column_name`
(the two Python functions are identical except for the prefix tag):
substitute unsafe characters, strip underscores, prefix `tag` when the
result is non-empty and does not start with a letter, truncate to 64
characters, lower-case. -/
def sanitizeIdentCore (tag : List Char) (cs : List Char) : List Char :=
  (sanitizeTruncate (sanitizePrefixStep tag (stripUnderscores (pySubUnsafe cs)))).map
    Char.toLower

/-- Embedding of `_sanitize_table_name` (agent_service.py lines 42-51). -/
def _sanitize_table_name (name : String) : String :=
  String.mk (sanitizeIdentCore "tbl_".data name.data)

/-- Embedding of `_sanitize_column_name` (agent_service.py lines 54-63). -/
def _sanitize_column_name (name : String) : String :=
  String.mk (sanitizeIdentCore "col_".data name.data)

/-- The output format claimed by the spec: a non-empty identifier
matching `^[a-z][a-z0-9_]*$`. -/
def isLowerIdent (s : String) : Bool :=
  match s.data with
  | [] => false
  | c :: rest =>
    c.isLower && rest.all (fun d => d.isLower || d.isDigit || d = '_')

/-! ## Python runtime values

`PyVal` covers the value shapes that flow through the executor and the
response shapers: `NULL`/`None`, `int`, `float` (exact rational model),
`str`, `datetime` (carrying its rendered form), `decimal.Decimal`
(exact rational model; it has `__float__` but neither `__dict__` nor
membership in `(int, float)`), and a generic object that has a
`__dict__` (carrying its `str()` rendering). -/

inductive PyVal where
  | vNone
  | vInt (n : Int)
  | vFloat (q : Rat)
  | vStr (s : String)
  | vDatetime (rendered : String)
  | vDec (q : Rat)
  | vObj (rendered : String)
deriving DecidableEq, Repr

/-- Model of Python `str(value)` for the values above (`datetime` and
objects carry their rendering; for a `float` whose value is integral
the CPython rendering appends `.0`; non-integral float renderings are
not exercised by any theorem below and are given a canonical form). -/
def pyValToStr : PyVal → String
  | PyVal.vNone => "None"
  | PyVal.vInt n => toString n
  | PyVal.vFloat q => if q.den = 1 then toString q.num ++ ".0" else toString q
  | PyVal.vStr s => s
  | PyVal.vDatetime r => r
  | PyVal.vDec q => if q.den = 1 then toString q.num else toString q
  | PyVal.vObj r => r

/-- A result row: Python `dict` modelled as an ordered association
list with distinct keys (insertion order preserved, as in Python). -/
abbrev PyRow := List (String × PyVal)

/-- Model of Python `key in row` followed by `row[key]` (first-match
lookup). -/
def rowLookup (row : PyRow) (key : String) : Option PyVal :=
  (row.find? (fun kv => kv.1 = key)).map (fun kv => kv.2)

/-- Model of Python `row.get(key, default)`. -/
def rowGetD (row : PyRow) (key : String) (dflt : PyVal) : PyVal :=
  (rowLookup row key).getD dflt

/-! ## Python `float(string)` parsing

Model of `float(s)` on strings already stripped of surrounding
whitespace: an optional sign, then decimal digits with single
underscores allowed between digits (PEP 515), an optional fractional
part and an optional exponent.  At least one digit must be present on
one side of the decimal point.  The special values `inf`/`nan` are not
representable in the exact model and parse to `none` (no theorem below
depends on them). -/

/-- Every underscore is directly surrounded by digits. -/
def underscoresBetweenDigits : List Char → Bool
  | [] => true
  | '_' :: _ => false
  | [_] => true
  | a :: b :: rest =>
    if b = '_' then
      a.isDigit && (match rest with
        | [] => false
        | c :: _ => c.isDigit) && underscoresBetweenDigits (b :: rest)
    else underscoresBetweenDigits (b :: rest)

/-- Digits to a natural number (most significant first). -/
def natOfDigits (cs : List Char) : Nat :=
  cs.foldl (fun a c => a * 10 + (c.toNat - 48)) 0

/-- Parse an optionally signed decimal integer (exponent part). -/
def parseSignedInt (cs : List Char) : Option Int :=
  match cs with
  | [] => none
  | '+' :: rest => if rest ≠ [] ∧ rest.all Char.isDigit then some (natOfDigits rest) else none
  | '-' :: rest => if rest ≠ [] ∧ rest.all Char.isDigit then some (-(natOfDigits rest : Int)) else none
  | _ => if cs.all Char.isDigit then some (natOfDigits cs) else none

/-- Ten to a (possibly negative) power, as a rational. -/
def ratPow10 (e : Int) : Rat :=
  if 0 ≤ e then ((10 : Rat) ^ e.toNat) else 1 / ((10 : Rat) ^ (-e).toNat)

/-- Parse the exponent suffix: empty, or `e`/`E` followed by a signed
integer. -/
def parseExpPart (cs : List Char) : Option Int :=
  match cs with
  | [] => some 0
  | c :: rest =>
    if c = 'e' ∨ c = 'E' then parseSignedInt rest else none

/-- Parse an unsigned float literal (digits, optional point, optional
exponent), underscores already removed. -/
def parseUnsignedFloat (cs : List Char) : Option Rat :=
  let intPart := cs.takeWhile Char.isDigit
  let rest1 := cs.dropWhile Char.isDigit
  match rest1 with
  | '.' :: rest2 =>
    let fracPart := rest2.takeWhile Char.isDigit
    let rest3 := rest2.dropWhile Char.isDigit
    if intPart.isEmpty ∧ fracPart.isEmpty then none
    else
      (parseExpPart rest3).map (fun e =>
        ((natOfDigits intPart : Rat)
          + (natOfDigits fracPart : Rat) / ((10 : Rat) ^ fracPart.length)) * ratPow10 e)
  | _ =>
    if intPart.isEmpty then none
    else (parseExpPart rest1).map (fun e => (natOfDigits intPart : Rat) * ratPow10 e)

/-- Model of Python `float(s)` (see section comment). -/
def pyFloatOfString (s : String) : Option Rat :=
  let cs := s.data
  if ¬ underscoresBetweenDigits cs then none
  else
    let cs := cs.filter (fun c => c ≠ '_')
    match cs with
    | '+' :: rest => parseUnsignedFloat rest
    | '-' :: rest => (parseUnsignedFloat rest).map (fun q => -q)
    | _ => parseUnsignedFloat cs

/-- Model of Python `float(value)` for values that are `int`/`float`
or provide `__float__` (exact in the rational model). -/
def pyFloatOfNumeric : PyVal → Option Rat
  | PyVal.vInt n => some (n : Rat)
  | PyVal.vFloat q => some q
  | PyVal.vDec q => some q
  | _ => none

/-! ## Query executor (`_execute_sql_query`, agent_service.py lines 580-627) -/

/-- The aggregate markers tested by `_execute_sql_query`. -/
def aggregationMarkers : List String :=
  ["sum(", "avg(", "count(", "max(", "min(", "group by", "having", "percentage"]

/-- Model of the executor's classification: any marker occurs in
`sql_query.lower().strip()`. -/
def isAggregationSql (sql : String) : Bool :=
  let sqlLower := pyStrip (pyLower sql)
  aggregationMarkers.any (fun kw => pyContains sqlLower kw)

/-- Model of `'limit' not in sql_lower` (negated). -/
def sqlHasLimit (sql : String) : Bool :=
  pyContains (pyStrip (pyLower sql)) "limit"

/-- The SQL text actually sent to the database: the executor appends
`LIMIT top_k*2` to a row-listing query with no `LIMIT`, and a fixed
`LIMIT 100` to an aggregate query with no `LIMIT`. -/
def executorFinalSql (sql : String) (top_k : Nat) : String :=
  if ¬ isAggregationSql sql ∧ ¬ sqlHasLimit sql then
    pyRstripSemi sql ++ " LIMIT " ++ toString (top_k * 2)
  else if isAggregationSql sql ∧ ¬ sqlHasLimit sql then
    pyRstripSemi sql ++ " LIMIT 100"
  else sql

/-- The executor's per-value normalization: `datetime` values become
their ISO rendering, objects with `__dict__` become their `str()`
form, `int`/`float` stay numeric (`decimal.Decimal` matches neither
branch and passes through unchanged). -/
def normalizeValue : PyVal → PyVal
  | PyVal.vDatetime r => PyVal.vStr r
  | PyVal.vObj r => PyVal.vStr r
  | PyVal.vInt n => PyVal.vInt n
  | PyVal.vFloat q => PyVal.vFloat q
  | v => v

/-- Row-wise normalization. -/
def normalizeRow (row : PyRow) : PyRow :=
  row.map (fun kv => (kv.1, normalizeValue kv.2))

/-- Embedding of `_execute_sql_query`.  `runSql` is the database
oracle: `none` models `db.execute`/`fetchall` raising (the function
then returns the empty result list), `some rows` models a successful
execution.  Row-listing results are truncated to `top_k` after
normalization; aggregate results are returned in full. -/
def _execute_sql_query (runSql : String → Option (List PyRow)) (sql : String)
    (top_k : Nat) : List PyRow :=
  match runSql (executorFinalSql sql top_k) with
  | none => []
  | some rows =>
    let results := rows.map normalizeRow
    if ¬ isAggregationSql sql then results.take top_k else results

/-! ## Graph-mode response shaper (`_generate_visualization_data`,
agent_service.py lines 630-855) -/

/-- Chart payloads returned by `_generate_visualization_data`: a
labelled series (bar/pie/line) or a single aggregated value. -/
inductive VizData where
  | chart (chart_type : String) (labels : List String) (values : List Rat)
      (category_label value_label title : String)
  | single (value : Rat) (label title : String)
deriving DecidableEq, Repr

/-- Key normalization used by the shaper's tolerant lookup:
`key.replace(' ', '_').replace('-', '_').lower()`. -/
def vizNormKey (k : String) : String :=
  pyLower (pyReplace (pyReplace k " " "_") "-" "_")

/-- Embedding of the shaper's `get_row_value`: exact key, then
case-insensitive key, then space/hyphen-normalized key. -/
def getRowValue (row : PyRow) (key : String) : Option PyVal :=
  match rowLookup row key with
  | some v => some v
  | none =>
    match row.find? (fun kv => pyLower kv.1 = pyLower key) with
    | some kv => some kv.2
    | none =>
      match row.find? (fun kv => vizNormKey kv.1 = vizNormKey key) with
      | some kv => some kv.2
      | none => none

/-- The label computed for one row: `str(get_row_value(...))`, with
`None` (a stored `None` or a missing key) rendered as the empty
string via the `row.get(category_key, '')` fallback. -/
def vizLabel (row : PyRow) (ckey : String) : String :=
  match getRowValue row ckey with
  | some v => if v = PyVal.vNone then "" else pyValToStr v
  | none => ""

/-- The raw value the first extraction pass works on:
`get_row_value(row, value_key)`, falling back to
`row.get(value_key, 0)` when that yields `None`. -/
def vizRawValue (row : PyRow) (vkey : String) : PyVal :=
  match getRowValue row vkey with
  | some v => if v = PyVal.vNone then rowGetD row vkey (PyVal.vInt 0) else v
  | none => rowGetD row vkey (PyVal.vInt 0)

/-- First-pass string cleaning:
`val.replace(',', '').replace('₹', '').replace('$', '').replace(' ', '').strip()`. -/
def cleanNumFull (s : String) : String :=
  pyStrip (pyReplace (pyReplace (pyReplace (pyReplace s "," "") "₹" "") "$" "") " " "")

/-- Re-extraction string cleaning (after an alternate column is
discovered): `val.replace(',', '').replace('₹', '').replace('$', '').strip()`
(note: no space removal). -/
def cleanNumKeepSpace (s : String) : String :=
  pyStrip (pyReplace (pyReplace (pyReplace s "," "") "₹" "") "$" "")

/-- Single-value / default-branch string cleaning:
`value.replace(',', '').replace('₹', '').strip()` (no `$` removal). -/
def cleanNumNoDollar (s : String) : String :=
  pyStrip (pyReplace (pyReplace s "," "") "₹" "")

/-- The first extraction pass's numeric coercion: `None` → 0,
`int`/`float` → exact value, values with `__float__` → exact value,
strings → cleaned (`cleanNumFull`) and parsed with `float`, anything
else → 0; every failure → 0. -/
def firstPassNumeric : PyVal → Rat
  | PyVal.vNone => 0
  | PyVal.vInt n => (n : Rat)
  | PyVal.vFloat q => q
  | PyVal.vDec q => q
  | PyVal.vStr s =>
    let cleaned := cleanNumFull s
    if cleaned = "" then 0 else (pyFloatOfString cleaned).getD 0
  | _ => 0

/-- The alternate-column discovery scan collects, for one candidate
key, `float(row.get(test_key, 0))` over the rows whose value is
`int`/`float` or has `__float__` — string values are skipped here. -/
def discoveryTestValues (results : List PyRow) (tkey : String) : List Rat :=
  results.filterMap (fun row => pyFloatOfNumeric (rowGetD row tkey (PyVal.vInt 0)))

/-- The first key (in key order, skipping the category key) whose
numeric-typed test values are non-empty and contain a positive one. -/
def findAltKey (results : List PyRow) (keys : List String) (ckey : String) : Option String :=
  keys.find? (fun k =>
    k ≠ ckey &&
      (let tv := discoveryTestValues results k
       ¬ tv.isEmpty && tv.any (fun v => 0 < v)))

/-- Value re-extraction once an alternate key has been discovered:
`int`/`float` and `__float__` values convert exactly, strings are
cleaned (`cleanNumKeepSpace`) and parsed, everything else → 0. -/
def reExtractValue (row : PyRow) (vkey : String) : Rat :=
  match rowGetD row vkey (PyVal.vInt 0) with
  | PyVal.vInt n => (n : Rat)
  | PyVal.vFloat q => q
  | PyVal.vDec q => q
  | PyVal.vStr s =>
    let cleaned := cleanNumKeepSpace s
    if cleaned = "" then 0 else (pyFloatOfString cleaned).getD 0
  | _ => 0

/-- Chart-type selection for the grouped branch: pie when the SQL
mentions `percentage` or the question contains `%`, line when the
category key mentions `time` or `date`, bar otherwise. -/
def vizChartType (sqlLower questionLower ckey : String) : String :=
  if pyContains sqlLower "percentage" || pyContains questionLower "%" then "pie_chart"
  else if pyContains (pyLower ckey) "time" || pyContains (pyLower ckey) "date" then "line_chart"
  else "bar_chart"

/-- The grouped (`GROUP BY`) branch of the shaper, entered when the
first row has at least two keys: first-pass label/value extraction,
the all-zero alternate-column fallback, chart-type selection and the
final validation (`len > 0` on both lists and some value positive,
otherwise `None`). -/
def vizGroupCore (results : List PyRow) (query sqlLower questionLower : String)
    (keys : List String) : Option VizData :=
  let ckey := keys.headD ""
  let vkey0 := (keys.drop 1).headD (keys.headD "")
  let labels := results.map (fun r => vizLabel r ckey)
  let values0 := results.map (fun r => firstPassNumeric (vizRawValue r vkey0))
  let kv :=
    if values0.all (fun v => v = 0) = true ∧ 0 < results.length then
      match findAltKey results keys ckey with
      | some k => (k, results.map (fun r => reExtractValue r k))
      | none => (vkey0, values0)
    else (vkey0, values0)
  let vkey := kv.1
  let values := kv.2
  let trimmed :=
    if labels.length ≠ values.length then
      let m := min labels.length values.length
      (labels.take m, values.take m)
    else (labels, values)
  let labels := trimmed.1
  let values := trimmed.2
  let ctype := vizChartType sqlLower questionLower ckey
  if 0 < labels.length ∧ 0 < values.length ∧ values.any (fun v => 0 < v) = true then
    some (VizData.chart ctype labels values
      (pyTitle (pyReplace ckey "_" " "))
      (pyTitle (pyReplace vkey "_" " "))
      (pySliceTo 100 query))
  else none

/-- The aggregate-function markers of the single-value branch. -/
def singleValueMarkers : List String := ["sum(", "avg(", "count(", "max(", "min("]

/-- The single-value branch: the first column of the first row,
coerced with the no-dollar cleaner (values that are neither
`int`/`float` nor `str` — including `Decimal` — coerce to 0 here). -/
def vizSingleValue (first : PyRow) (query : String) (keys : List String) : Option VizData :=
  match keys with
  | [] => none
  | vkey :: _ =>
    let value := rowGetD first vkey (PyVal.vInt 0)
    let numeric :=
      match value with
      | PyVal.vInt n => (n : Rat)
      | PyVal.vFloat q => q
      | PyVal.vStr s => (pyFloatOfString (cleanNumNoDollar s)).getD 0
      | _ => 0
    some (VizData.single numeric (pyTitle (pyReplace vkey "_" " ")) (pySliceTo 100 query))

/-- The default branch: first two columns as labels/values with the
no-dollar cleaner; `None` when fewer than two columns. -/
def vizDefaultBranch (results : List PyRow) (query : String) (keys : List String) :
    Option VizData :=
  match keys with
  | k0 :: k1 :: _ =>
    let labels := results.map (fun row => pyValToStr (rowGetD row k0 (PyVal.vStr "")))
    let values := results.map (fun row =>
      match rowGetD row k1 (PyVal.vInt 0) with
      | PyVal.vInt n => (n : Rat)
      | PyVal.vFloat q => q
      | PyVal.vStr s => (pyFloatOfString (cleanNumNoDollar s)).getD 0
      | _ => 0)
    some (VizData.chart "bar_chart" labels values
      (pyTitle (pyReplace k0 "_" " "))
      (pyTitle (pyReplace k1 "_" " "))
      (pySliceTo 100 query))
  | _ => none

/-- Embedding of `_generate_visualization_data(results, query, sql_query)`:
empty results → `None`; `GROUP BY` in the lowered SQL with ≥ 2 columns
→ grouped branch; otherwise an aggregate-function marker → single
value; otherwise (including a grouped result with < 2 columns, which
falls through in the Python control flow) the default branch. -/
def _generate_visualization_data (results : List PyRow) (query sql : String) :
    Option VizData :=
  match results with
  | [] => none
  | first :: _ =>
    let sqlLower := pyLower sql
    let questionLower := pyLower query
    let keys := first.map Prod.fst
    if pyContains sqlLower "group by" then
      if 2 ≤ keys.length then
        vizGroupCore results query sqlLower questionLower keys
      else vizDefaultBranch results query keys
    else if singleValueMarkers.any (fun kw => pyContains sqlLower kw) then
      match keys with
      | [] => vizDefaultBranch results query keys
      | _ :: _ => vizSingleValue first query keys
    else vizDefaultBranch results query keys

/-! ## Table-mode response shaper (`_generate_table_data`,
agent_service.py lines 858-896) -/

/-- Table payload: headers, stringified rows, row count. -/
structure TableData where
  headers : List String
  rows : List (List String)
  row_count : Nat
deriving DecidableEq, Repr

/-- Embedding of `_generate_table_data`: headers from the first row's
keys; every cell `row.get(header, '')` stringified with `None` →
empty string. -/
def _generate_table_data (results : List PyRow) : Option TableData :=
  match results with
  | [] => none
  | first :: _ =>
    let headers := first.map Prod.fst
    let rows := results.map (fun row => headers.map (fun h =>
      match rowGetD row h (PyVal.vStr "") with
      | PyVal.vNone => ""
      | v => pyValToStr v))
    some { headers := headers, rows := rows, row_count := results.length }

/-! ## Query translator (`_generate_sql_query`, agent_service.py
lines 373-577)

The generative-model boundary is an oracle: the API key resolution,
`genai.configure`, the model-constructor fallback loop and
`generate_content` are modelled by the fields of `GenDeps`.  Key
strings are modelled post-`strip`, with `none` standing for a missing
or empty (falsy) credential. -/

/-- Outcome of `model.generate_content(prompt)`: the call raises, the
response is falsy / has no usable `text`, or it yields text. -/
inductive GenOutcome where
  | gThrows
  | gEmpty
  | gText (t : String)
deriving DecidableEq, Repr

/-- Oracle inputs of one `_generate_sql_query` invocation. -/
structure GenDeps where
  moduleKey : Option String
  envKey : Option String
  configureThrows : Bool
  modelInits : List Bool
  outcome : GenOutcome

/-- The translator's post-processing of raw model output: strip
whitespace, then (twice, for the plain and the `sql`-tagged fence)
drop the first and last line when the text starts with a fence marker
and has more than two lines. -/
def postProcessSqlText (t : String) : String :=
  let s := pyStrip t
  let s :=
    if pyStartsWith s "```" then
      let lines := pySplitNL s
      if 2 < lines.length then pyJoinNL (lines.drop 1).dropLast else s
    else s
  if pyStartsWith s "```sql" then
    let lines := pySplitNL s
    if 2 < lines.length then pyJoinNL (lines.drop 1).dropLast else s
  else s

/-- Embedding of `_generate_sql_query`.  The api key is the module
key when truthy, else the (stripped) environment key; `configure` is
invoked exactly when the module key is falsy and may raise; the
model-constructor loop succeeds when some candidate initializes; the
invocation outcome is the oracle's.  Every failure path returns
`none`. -/
def _generate_sql_query (d : GenDeps) : Option String :=
  let api_key := match d.moduleKey with
    | some k => some k
    | none => d.envKey
  match api_key with
  | none => none
  | some _ =>
    if d.moduleKey = none ∧ d.configureThrows then none
    else if ¬ d.modelInits.any id then none
    else
      match d.outcome with
      | GenOutcome.gThrows => none
      | GenOutcome.gEmpty => none
      | GenOutcome.gText t => some (postProcessSqlText t)

/-- The condition under which `_generate_sql_query` fails, as the
spec lists it: no credential resolves, configuration raises, no
candidate model initializes, the response is empty, or the invocation
raises. -/
def genFailureConds (d : GenDeps) : Prop :=
  (d.moduleKey = none ∧ d.envKey = none)
    ∨ (d.moduleKey = none ∧ d.configureThrows)
    ∨ d.modelInits.any id = false
    ∨ d.outcome = GenOutcome.gThrows
    ∨ d.outcome = GenOutcome.gEmpty

instance (d : GenDeps) : Decidable (genFailureConds d) := by
  unfold genFailureConds
  infer_instance

/-! ## Orchestration layer (`query_service`, `delete_file_service`,
`_get_table_name_by_id_or_latest`; agent_service.py lines 1256-1438) -/

/-- The uniform response envelope `{status, message, data}`. -/
structure Envelope (α : Type) where
  status : Bool
  message : String
  data : Option α
deriving DecidableEq, Repr

/-- One `ExcelUploads` bookkeeping record. -/
structure Upload where
  id : String
  user_id : String
  filename : String
  table_name : String
  created_at : Nat
deriving DecidableEq, Repr

/-- Embedding of `_get_latest_table_name`: the caller's most recently
created upload (`order_by created_at desc`, first row), keeping the
earlier record on a timestamp tie. -/
def _get_latest_table_name (uploads : List Upload) (uid : String) : Option String :=
  let mine := uploads.filter (fun u => u.user_id = uid)
  (mine.foldl (fun acc u =>
    match acc with
    | none => some u
    | some b => if b.created_at < u.created_at then some u else some b) none).map
      (fun u => u.table_name)

/-- Embedding of `_get_table_name_by_id_or_latest`: a truthy explicit
table name is ownership-checked (returning `none` both when no such
table exists and when it belongs to another user); otherwise the
latest upload is used. -/
def _get_table_name_by_id_or_latest (uploads : List Upload) (uid : String)
    (table_name : Option String) : Option String :=
  match table_name with
  | some t =>
    if t ≠ "" then
      if uploads.any (fun u => u.table_name = t && u.user_id = uid) then some t else none
    else _get_latest_table_name uploads uid
  | none => _get_latest_table_name uploads uid

/-- The `data` payload of a successful `query_service` call. -/
structure QueryResponseData where
  answer : String
  results : Option (List PyRow)
  sql_query : String
  table_name : String
  mode : String
  visualization_data : Option VizData
  table_data : Option TableData
deriving DecidableEq, Repr

/-- Oracle inputs of one `query_service` call: the module-level
`GEMINI_KEY` (post-strip, `none` when falsy), the bookkeeping table,
the schema introspector, the translator, the database, and the
natural-language answer generator (a second model call, a function of
question, results, schema and mode). -/
structure QueryDeps where
  moduleKey : Option String
  uploads : List Upload
  schemaOf : String → String
  genSql : String → String → String → Option String
  runSql : String → Option (List PyRow)
  genAnswer : String → List PyRow → String → String → String

/-- Message for a truthy requested table that did not resolve. -/
def msgTableNotFound (t : String) : String :=
  "Table \x27" ++ t ++ "\x27 not found or you don\x27t have permission to access it. Please upload a file first or select a valid file."

/-- Message when no table was requested and none exists. -/
def msgNoUpload : String :=
  "No Excel file has been uploaded yet. Please upload an Excel file first."

/-- Generation-failure message when the module key is missing. -/
def msgKeyNotConfigured : String :=
  "GEMINI_KEY not found in environment variables. Please set GEMINI_KEY in your .env file."

/-- Generation-failure message when a key is configured. -/
def msgGenerationFailed : String :=
  "Failed to generate SQL query. Please check Gemini API configuration and ensure your API key is valid."

/-- Embedding of `query_service(query, top_k, user_id, mode, table_name)`. -/
def query_service (d : QueryDeps) (query : String) (top_k : Nat)
    (user_id : Option String) (mode : String) (table_name : Option String) :
    Envelope QueryResponseData :=
  if query = "" ∨ pyStrip query = "" then
    { status := false, message := "Query cannot be empty", data := none }
  else if user_id = none ∨ user_id = some "" then
    { status := false, message := "User authentication required", data := none }
  else
    let uid := user_id.getD ""
    match _get_table_name_by_id_or_latest d.uploads uid table_name with
    | none =>
      match table_name with
      | some t =>
        if t ≠ "" then
          { status := false, message := msgTableNotFound t, data := none }
        else { status := false, message := msgNoUpload, data := none }
      | none => { status := false, message := msgNoUpload, data := none }
    | some tbl =>
      let schema := d.schemaOf tbl
      let sqlOpt := d.genSql query schema tbl
      match sqlOpt with
      | none =>
        { status := false
          message := if d.moduleKey = none then msgKeyNotConfigured else msgGenerationFailed
          data := none }
      | some sql =>
        if sql = "" then
          { status := false
            message := if d.moduleKey = none then msgKeyNotConfigured else msgGenerationFailed
            data := none }
        else
          let results := _execute_sql_query d.runSql sql top_k
          let answer := d.genAnswer query results schema mode
          { status := true
            message := "Query processed successfully"
            data := some
              { answer := answer
                results := if results.isEmpty then none else some results
                sql_query := sql
                table_name := tbl
                mode := mode
                visualization_data :=
                  if mode = "graph" then _generate_visualization_data results query sql
                  else none
                table_data :=
                  if mode = "table" then _generate_table_data results else none } }

/-- The `data` payload of a successful `delete_file_service` call. -/
structure DeleteData where
  file_id : String
  filename : String
  table_name : String
  table_dropped : Bool
deriving DecidableEq, Repr

/-- Message for a delete of a file that is missing or not owned. -/
def msgFileNotFound : String :=
  "File not found or you don\x27t have permission to delete it"

/-- Embedding of `delete_file_service(file_id, user_id)`; `dropOk`
models the outcome of `_drop_table` (a failed drop is reported in the
payload but does not block the delete). -/
def delete_file_service (uploads : List Upload) (dropOk : Bool) (file_id : String)
    (user_id : Option String) : Envelope DeleteData :=
  if user_id = none ∨ user_id = some "" then
    { status := false, message := "User authentication required", data := none }
  else
    match uploads.find? (fun u => u.id = file_id && u.user_id = user_id.getD "") with
    | none => { status := false, message := msgFileNotFound, data := none }
    | some u =>
      { status := true
        message := "Successfully deleted file \x27" ++ u.filename ++ "\x27 and its database table"
        data := some
          { file_id := file_id, filename := u.filename
            table_name := u.table_name, table_dropped := dropOk } }

/-! ## Ingest (`_preprocess_csv_data`, `_read_csv_with_preprocessing`,
`upload_excel_service`; agent_service.py lines 144-313) -/

/-- A wall-clock instant: whole seconds since the epoch plus
microseconds (`datetime.now()` has sub-second resolution). -/
structure Instant where
  sec : Nat
  micro : Nat
deriving DecidableEq, Repr

/-- Left-pad a decimal rendering with zeroes to width `w`. -/
def padZeroes (w : Nat) (n : Nat) : String :=
  let s := toString n
  String.mk (List.replicate (w - s.length) '0') ++ s

/-- Proleptic-Gregorian civil date from days since 1970-01-01
(the standard era/day-of-era computation). -/
def civilFromDays (days : Nat) : Nat × Nat × Nat :=
  let z := days + 719468
  let era := z / 146097
  let doe := z % 146097
  let yoe := (doe - doe / 1460 + doe / 36524 - doe / 146096) / 365
  let y := yoe + era * 400
  let doy := doe - (365 * yoe + yoe / 4 - yoe / 100)
  let mp := (5 * doy + 2) / 153
  let d := doy - (153 * mp + 2) / 5 + 1
  let m := if mp < 10 then mp + 3 else mp - 9
  (if m ≤ 2 then y + 1 else y, m, d)

/-- Model of `datetime.now().strftime("%Y%m%d_%H%M%S")`: the civil
rendering of the whole-second part of the clock (timezone fixed; the
microsecond field is dropped by the format, which is the property the
naming policy depends on). -/
def strftimeYmdHMS (t : Instant) : String :=
  let days := t.sec / 86400
  let rem := t.sec % 86400
  let c := civilFromDays days
  padZeroes 4 c.1 ++ padZeroes 2 c.2.1 ++ padZeroes 2 c.2.2 ++ "_"
    ++ padZeroes 2 (rem / 3600) ++ padZeroes 2 ((rem % 3600) / 60) ++ padZeroes 2 (rem % 60)

/-- The final path component (after the last `/`). -/
def pyPathFinalComponent (s : String) : String :=
  String.mk ((s.data.reverse.takeWhile (fun c => c ≠ '/')).reverse)

/-- Model of `pathlib.Path(p).suffix`: the part of the final component
from its last dot, empty when that dot is absent, leading or
trailing. -/
def pyPathSuffix (p : String) : String :=
  let name := (pyPathFinalComponent p).data
  match name.reverse.findIdx? (fun c => c = '.') with
  | none => ""
  | some j =>
    let i := name.length - 1 - j
    if 0 < i ∧ i < name.length - 1 then String.mk (name.drop i) else ""

/-- Model of `pathlib.Path(p).stem`. -/
def pyPathStem (p : String) : String :=
  let name := (pyPathFinalComponent p).data
  match name.reverse.findIdx? (fun c => c = '.') with
  | none => String.mk name
  | some j =>
    let i := name.length - 1 - j
    if 0 < i ∧ i < name.length - 1 then String.mk (name.take i) else String.mk name

/-- A parsed pandas frame: ordered column names and rows of cells
(cells modelled as their text; the ingest claims only inspect column
structure and emptiness). -/
structure DataFrame where
  columns : List String
  rows : List (List String)
deriving DecidableEq, Repr

/-- Model of pandas `df.empty`: some axis has length zero. -/
def dfEmpty (df : DataFrame) : Bool := df.columns.isEmpty || df.rows.isEmpty

/-- The fixed 16-column challan whitelist of `_preprocess_csv_data`
(verbatim from the source, including the `"Latitue Longtitue"`
spelling). -/
def challanRequiredColumns : List String :=
  ["Challan Number", "Challan Source", "Vehicle Number", "Challan Date",
   "Challan Place", "Latitue Longtitue", "Violator Name", "Violator Address",
   "Violator Contact", "Owner Name", "Challan Status", "Challan Amount",
   "Vehicle Class", "Send To Court Date", "Court Name", "Offences"]

/-- Cell projection for `df[required]`: value of the first column with
the given name. -/
def dfSelectCell (cols : List String) (row : List String) (c : String) : String :=
  match cols.findIdx? (fun k => k = c) with
  | some i => row.getD i ""
  | none => ""

/-- Embedding of `_preprocess_csv_data`: keep exactly the whitelisted
columns that are present (in whitelist order), dropping every other
column. -/
def _preprocess_csv_data (df : DataFrame) : DataFrame :=
  let required := challanRequiredColumns.filter (fun c => df.columns.contains c)
  { columns := required
    rows := df.rows.map (fun r => required.map (fun c => dfSelectCell df.columns r c)) }

/-- Embedding of `_read_csv_with_preprocessing(file_content, skip_rows=7)`
over the file's parsed records: the first 7 lines are skipped, the
next record is the header, the rest are data rows; a file with
nothing after the skip raises pandas `EmptyDataError` (modelled as an
error value). -/
def _read_csv_with_preprocessing (records : List (List String)) : Except String DataFrame :=
  match records.drop 7 with
  | [] => Except.error "No columns to parse from file"
  | header :: dataRows =>
    Except.ok (_preprocess_csv_data { columns := header, rows := dataRows })

/-- The two parses of the uploaded bytes (csv reader / excel reader);
an `error` models the parser raising, which the service's outer
`except` turns into an error envelope. -/
structure FileOracle where
  asCsv : Except String (List (List String))
  asExcel : Except String DataFrame

/-- The `data` payload of a successful upload. -/
structure UploadData where
  table_name : String
  rows_processed : Nat
  rows_stored : Nat
  columns : List String
deriving DecidableEq, Repr

/-- The generated dynamic-table name
`excel_{_sanitize_table_name(stem)}_{timestamp}` of
`upload_excel_service` (lines 265-267). -/
def uploadTableName (filename : String) (now : Instant) : String :=
  "excel_" ++ _sanitize_table_name (pyPathStem filename) ++ "_" ++ strftimeYmdHMS now

/-- Common continuation of `upload_excel_service` once a frame is
parsed: emptiness checks, table creation (`createOk` oracle), row
insertion (`insertThrows` oracle with the raised message), bookkeeping
and the success payload. -/
def uploadWithFrame (filename : String) (now : Instant) (createOk insertThrows : Bool)
    (insertErrText : String) (df : DataFrame) : Envelope UploadData :=
  if dfEmpty df then
    { status := false, message := "File is empty after processing", data := none }
  else if df.columns.isEmpty then
    { status := false, message := "File has no columns after processing", data := none }
  else if ¬ createOk then
    { status := false, message := "Failed to create database table", data := none }
  else if insertThrows then
    { status := false, message := "Error processing file: " ++ insertErrText, data := none }
  else
    { status := true
      message := "Successfully uploaded and stored " ++ toString df.rows.length ++ " rows"
      data := some
        { table_name := uploadTableName filename now
          rows_processed := df.rows.length
          rows_stored := df.rows.length
          columns := df.columns } }

/-- Embedding of `upload_excel_service(file_content, filename, user_id)`:
dispatch on the lower-cased extension (`.csv` goes through the
skip-7-rows reader and the challan-column preprocessing; `.xlsx`/`.xls`
keep the sheet as parsed; anything else is rejected), then the common
continuation. -/
def upload_excel_service (filename : String) (file : FileOracle) (now : Instant)
    (createOk insertThrows : Bool) (insertErrText : String) : Envelope UploadData :=
  let ext := pyLower (pyPathSuffix filename)
  if ext = ".csv" then
    match (match file.asCsv with
           | Except.error e => Except.error e
           | Except.ok records => _read_csv_with_preprocessing records) with
    | Except.error e =>
      { status := false, message := "Error processing file: " ++ e, data := none }
    | Except.ok df => uploadWithFrame filename now createOk insertThrows insertErrText df
  else if ext = ".xlsx" ∨ ext = ".xls" then
    match file.asExcel with
    | Except.error e =>
      { status := false, message := "Error processing file: " ++ e, data := none }
    | Except.ok df => uploadWithFrame filename now createOk insertThrows insertErrText df
  else
    { status := false
      message := "Unsupported file format: " ++ ext ++ ". Only .xlsx, .xls, and .csv are supported."
      data := none }

/-! ## Helper lemmas: ASCII character classes under `Char.toLower` -/

theorem charIsLower_iff (c : Char) : c.isLower = true ↔ (97 ≤ c.toNat ∧ c.toNat ≤ 122) := by
  simp only [Char.isLower, Bool.and_eq_true, decide_eq_true_eq]
  exact Iff.rfl

theorem charIsUpper_iff (c : Char) : c.isUpper = true ↔ (65 ≤ c.toNat ∧ c.toNat ≤ 90) := by
  simp only [Char.isUpper, Bool.and_eq_true, decide_eq_true_eq]
  exact Iff.rfl

theorem charIsDigit_iff (c : Char) : c.isDigit = true ↔ (48 ≤ c.toNat ∧ c.toNat ≤ 57) := by
  simp only [Char.isDigit, Bool.and_eq_true, decide_eq_true_eq]
  exact Iff.rfl

theorem charToNat_ofNat (m : Nat) (h1 : 97 ≤ m) (h2 : m ≤ 122) : (Char.ofNat m).toNat = m := by
  have hv : m.isValidChar := Or.inl (by omega)
  simp only [Char.ofNat, hv, dite_true, dif_pos]
  simp [Char.ofNatAux, Char.toNat, UInt32.toNat, UInt32.ofNatTruncate]

theorem toLower_of_upper (c : Char) (h : c.isUpper = true) :
    (Char.toLower c).isLower = true := by
  rw [charIsUpper_iff] at h
  unfold Char.toLower
  rw [if_pos (by omega)]
  rw [charIsLower_iff, charToNat_ofNat (c.toNat + 32) (by omega) (by omega)]
  omega

theorem toLower_of_not_upper (c : Char) (h : ¬ (65 ≤ c.toNat ∧ c.toNat ≤ 90)) :
    Char.toLower c = c := by
  unfold Char.toLower
  rw [if_neg h]

theorem toLower_isLower_of_isAlpha (c : Char) (h : c.isAlpha = true) :
    (Char.toLower c).isLower = true := by
  rcases Bool.or_eq_true _ _ |>.mp h with hu | hl
  · exact toLower_of_upper c hu
  · rw [charIsLower_iff] at hl
    rw [toLower_of_not_upper c (by omega)]
    rw [charIsLower_iff]
    omega

theorem toLower_of_isLower (c : Char) (h : c.isLower = true) : Char.toLower c = c := by
  rw [charIsLower_iff] at h
  exact toLower_of_not_upper c (by omega)

theorem toLower_of_isDigit (c : Char) (h : c.isDigit = true) : Char.toLower c = c := by
  rw [charIsDigit_iff] at h
  exact toLower_of_not_upper c (by omega)

theorem underscore_toNat : ('_' : Char).toNat = 95 := rfl

theorem toLower_underscore : Char.toLower '_' = '_' := rfl

theorem toLower_class (c : Char) (h : (c.isAlphanum || c = '_') = true) :
    ((Char.toLower c).isLower || (Char.toLower c).isDigit || Char.toLower c = '_') = true := by
  simp only [Bool.or_eq_true, decide_eq_true_eq] at h ⊢
  rcases h with h | h
  · rcases Bool.or_eq_true _ _ |>.mp h with ha | hd
    · exact Or.inl (Or.inl (toLower_isLower_of_isAlpha c ha))
    · rw [toLower_of_isDigit c hd]
      exact Or.inl (Or.inr hd)
  · subst h
    exact Or.inr toLower_underscore

theorem isAlphanum_of_class (c : Char)
    (h : (c.isLower || c.isDigit || c = '_') = true) : (c.isAlphanum || c = '_') = true := by
  simp only [Bool.or_eq_true, decide_eq_true_eq] at h ⊢
  rcases h with (h | h) | h
  · exact Or.inl (by simp [Char.isAlphanum, Char.isAlpha, h])
  · exact Or.inl (by simp [Char.isAlphanum, h])
  · exact Or.inr h

/-! ## Helper lemmas: the sanitizer pipeline -/

theorem head_dropWhile_ne {α : Type} (p : α → Bool) :
    ∀ (l : List α) (c : α), (List.dropWhile p l).head? = some c → p c = false := by
  intro l
  induction l with
  | nil => intro c h; simp [List.dropWhile] at h
  | cons a as ih =>
    intro c h
    rw [List.dropWhile_cons] at h
    by_cases ha : p a
    · rw [if_pos ha] at h
      exact ih c h
    · rw [if_neg ha] at h
      simp only [List.head?_cons, Option.some.injEq] at h
      subst h
      exact Bool.of_not_eq_true ha

theorem pySubUnsafe_mem_class (cs : List Char) (c : Char) (hc : c ∈ pySubUnsafe cs) :
    (c.isAlphanum || c = '_') = true := by
  unfold pySubUnsafe at hc
  rw [List.mem_map] at hc
  obtain ⟨a, _, ha⟩ := hc
  by_cases h : (a.isAlphanum || a = '_') = true
  · rw [if_pos h] at ha
    subst ha
    exact h
  · rw [if_neg h] at ha
    subst ha
    simp

theorem stripUnderscores_subset (cs : List Char) : stripUnderscores cs ⊆ cs := by
  intro c hc
  unfold stripUnderscores at hc
  rw [List.mem_reverse] at hc
  have h1 := (List.dropWhile_sublist (fun c => c = '_')).subset hc
  rw [List.mem_reverse] at h1
  exact (List.dropWhile_sublist (fun c => c = '_')).subset h1

theorem stripUnderscores_isPrefix (cs : List Char) :
    stripUnderscores cs <+: cs.dropWhile (fun c => c = '_') := by
  unfold stripUnderscores
  set A := cs.dropWhile (fun c => c = '_') with hA
  have h1 : (A.reverse.dropWhile (fun c => c = '_')) <:+ A.reverse :=
    List.dropWhile_suffix _
  have h2 := List.reverse_prefix.mpr h1
  rwa [List.reverse_reverse] at h2

theorem stripUnderscores_head (cs : List Char) (c : Char) (rest : List Char)
    (h : stripUnderscores cs = c :: rest) : (c = '_') = false := by
  have hp := stripUnderscores_isPrefix cs
  rw [h] at hp
  obtain ⟨t, ht⟩ := hp
  have : (cs.dropWhile (fun c => c = '_')).head? = some c := by
    rw [← ht]
    rfl
  have := head_dropWhile_ne (fun c => c = '_') cs c this
  simpa using this

theorem stripUnderscores_getLast (cs : List Char) (c : Char)
    (h : (stripUnderscores cs).getLast? = some c) : (c = '_') = false := by
  unfold stripUnderscores at h
  rw [List.getLast?_reverse] at h
  have := head_dropWhile_ne (fun c => c = '_') _ c h
  simpa using this

theorem sanitizeTruncate_length (s : List Char) : (sanitizeTruncate s).length ≤ max 64 s.length := by
  unfold sanitizeTruncate
  by_cases h : 64 < s.length
  · rw [if_pos h, List.length_take]
    omega
  · rw [if_neg h]
    omega

theorem sanitizeIdentCore_length (tag cs : List Char) :
    (sanitizeIdentCore tag cs).length ≤ 64 := by
  unfold sanitizeIdentCore sanitizeTruncate
  rw [List.length_map]
  by_cases h : 64 < (sanitizePrefixStep tag (stripUnderscores (pySubUnsafe cs))).length
  · rw [if_pos h, List.length_take]
    omega
  · rw [if_neg h]
    omega

theorem sanitizeTruncate_subset (s : List Char) : sanitizeTruncate s ⊆ s := by
  unfold sanitizeTruncate
  by_cases h : 64 < s.length
  · rw [if_pos h]
    exact List.take_subset 64 s
  · rw [if_neg h]
    exact fun a ha => ha

theorem sanitizePrefixStep_subset (tag s : List Char) :
    sanitizePrefixStep tag s ⊆ tag ++ s := by
  match s with
  | [] => simp [sanitizePrefixStep]
  | c :: rest =>
    simp only [sanitizePrefixStep]
    by_cases h : c.isAlpha = true
    · rw [if_neg (not_not_intro h)]
      exact List.subset_append_right tag (c :: rest)
    · rw [if_pos h]
      exact fun a ha => ha

theorem sanitizeIdentCore_chars (tag cs : List Char)
    (htag : ∀ c ∈ tag, (c.isAlphanum || c = '_') = true) :
    ∀ c ∈ sanitizeIdentCore tag cs, (c.isLower || c.isDigit || c = '_') = true := by
  intro c hc
  unfold sanitizeIdentCore at hc
  rw [List.mem_map] at hc
  obtain ⟨d, hd, rfl⟩ := hc
  apply toLower_class
  have hd2 := sanitizeTruncate_subset _ hd
  have hd3 := sanitizePrefixStep_subset tag _ hd2
  rw [List.mem_append] at hd3
  rcases hd3 with h | h
  · exact htag d h
  · exact pySubUnsafe_mem_class cs d (stripUnderscores_subset _ h)

theorem sanitizeIdentCore_of_strip_empty (tag cs : List Char)
    (h : stripUnderscores (pySubUnsafe cs) = []) : sanitizeIdentCore tag cs = [] := by
  unfold sanitizeIdentCore
  rw [h]
  rfl

theorem sanitizeTruncate_head (s : List Char) (c : Char) (rest : List Char)
    (h : s = c :: rest) : ∃ rest2, sanitizeTruncate s = c :: rest2 := by
  subst h
  unfold sanitizeTruncate
  by_cases h : 64 < (c :: rest).length
  · rw [if_pos h]
    exact ⟨rest.take 63, rfl⟩
  · rw [if_neg h]
    exact ⟨rest, rfl⟩

theorem sanitizeIdentCore_valid (tag cs : List Char)
    (htag : ∀ c ∈ tag, (c.isAlphanum || c = '_') = true)
    (htagHead : ∃ t trest, tag = t :: trest ∧ t.isAlpha = true)
    (h : stripUnderscores (pySubUnsafe cs) ≠ []) :
    isLowerIdent (String.mk (sanitizeIdentCore tag cs)) = true := by
  obtain ⟨c, rest, hcr⟩ := List.exists_cons_of_ne_nil h
  have hchars := sanitizeIdentCore_chars tag cs htag
  have hhead : ∃ e erest, sanitizeIdentCore tag cs = e :: erest ∧ e.isLower = true := by
    unfold sanitizeIdentCore
    rw [hcr]
    simp only [sanitizePrefixStep]
    by_cases halpha : c.isAlpha = true
    · rw [if_neg (not_not_intro halpha)]
      obtain ⟨r2, hr2⟩ := sanitizeTruncate_head (c :: rest) c rest rfl
      rw [hr2]
      exact ⟨c.toLower, r2.map Char.toLower, rfl, toLower_isLower_of_isAlpha c halpha⟩
    · rw [if_pos halpha]
      obtain ⟨t, trest, htag1, htag2⟩ := htagHead
      rw [htag1]
      obtain ⟨r2, hr2⟩ := sanitizeTruncate_head ((t :: trest) ++ c :: rest) t (trest ++ c :: rest) rfl
      rw [hr2]
      exact ⟨t.toLower, r2.map Char.toLower, rfl, toLower_isLower_of_isAlpha t htag2⟩
  obtain ⟨e, erest, heq, hlow⟩ := hhead
  unfold isLowerIdent
  rw [heq]
  simp only [Bool.and_eq_true]
  constructor
  · exact hlow
  · rw [List.all_eq_true]
    intro d hd
    exact hchars d (by rw [heq]; exact List.mem_cons_of_mem e hd)

theorem isLower_ne_underscore (c : Char) (h : c.isLower = true) : (decide (c = '_')) = false := by
  rw [charIsLower_iff] at h
  simp only [decide_eq_false_iff_not]
  intro heq
  subst heq
  rw [underscore_toNat] at h
  omega

theorem class_ne_underscore (c : Char)
    (h : (c.isLower || c.isDigit || c = '_') = true) (hne : c ≠ '_') :
    c.isLower = true ∨ c.isDigit = true := by
  simp only [Bool.or_eq_true, decide_eq_true_eq] at h
  rcases h with (h | h) | h
  · exact Or.inl h
  · exact Or.inr h
  · exact absurd h hne

theorem dropWhile_eq_self_of_head {α : Type} (p : α → Bool) (l : List α)
    (h : ∀ c, l.head? = some c → p c = false) : l.dropWhile p = l := by
  match l with
  | [] => rfl
  | a :: as =>
    have ha := h a rfl
    rw [List.dropWhile_cons, if_neg (by simp [ha])]

theorem isLowerIdent_head (c : Char) (rest : List Char)
    (h : isLowerIdent (String.mk (c :: rest)) = true) : c.isLower = true := by
  unfold isLowerIdent at h
  simp only [Bool.and_eq_true] at h
  exact h.1

theorem sanitizeIdentCore_ne_nil_strip (tag cs : List Char)
    (h : sanitizeIdentCore tag cs ≠ []) : stripUnderscores (pySubUnsafe cs) ≠ [] := by
  intro hc
  exact h (sanitizeIdentCore_of_strip_empty tag cs hc)

theorem sanitizeIdentCore_fixed (tag : List Char) (t : List Char)
    (hchars : ∀ c ∈ t, (c.isLower || c.isDigit || c = '_') = true)
    (hhead : ∀ c rest, t = c :: rest → c.isLower = true)
    (hlast : t.getLast? ≠ some '_')
    (hlen : t.length ≤ 64) :
    sanitizeIdentCore tag t = t := by
  have h1 : pySubUnsafe t = t := by
    unfold pySubUnsafe
    have : t.map (fun c => if c.isAlphanum || c = '_' then c else '_') = t.map id :=
      List.map_congr_left (fun a ha => by
        rw [if_pos (isAlphanum_of_class a (hchars a ha))]
        rfl)
    rw [this, List.map_id]
  have hheadfact : ∀ c, t.head? = some c → (decide (c = '_')) = false := by
    intro c hc
    cases t with
    | nil => simp at hc
    | cons a as =>
      simp only [List.head?_cons, Option.some.injEq] at hc
      subst hc
      exact isLower_ne_underscore a (hhead a as rfl)
  have hlastfact : ∀ c, t.reverse.head? = some c → (decide (c = '_')) = false := by
    intro c hc
    rw [List.head?_reverse] at hc
    simp only [decide_eq_false_iff_not]
    intro heq
    subst heq
    exact hlast hc
  have h2 : stripUnderscores t = t := by
    unfold stripUnderscores
    rw [dropWhile_eq_self_of_head _ t hheadfact]
    rw [dropWhile_eq_self_of_head _ t.reverse hlastfact]
    exact List.reverse_reverse t
  have h3 : sanitizePrefixStep tag t = t := by
    match t with
    | [] => rfl
    | c :: rest =>
      simp only [sanitizePrefixStep]
      have hc := hhead c rest rfl
      rw [if_neg (not_not_intro (by simp [Char.isAlpha, hc]))]
  have h4 : sanitizeTruncate t = t := by
    unfold sanitizeTruncate
    rw [if_neg (by omega)]
  have h5 : t.map Char.toLower = t := by
    have : t.map Char.toLower = t.map id :=
      List.map_congr_left (fun a ha => by
        have h := hchars a ha
        simp only [Bool.or_eq_true, decide_eq_true_eq] at h
        rcases h with (h | h) | h
        · exact toLower_of_isLower a h
        · exact toLower_of_isDigit a h
        · subst h
          exact toLower_underscore)
    rw [this, List.map_id]
  unfold sanitizeIdentCore
  rw [h1, h2, h3, h4, h5]

theorem sanitizeIdentCore_idem (tag : List Char)
    (htag : ∀ c ∈ tag, (c.isAlphanum || c = '_') = true)
    (htagHead : ∃ u urest, tag = u :: urest ∧ u.isAlpha = true)
    (cs : List Char)
    (hlast : (sanitizeIdentCore tag cs).getLast? ≠ some '_') :
    sanitizeIdentCore tag (sanitizeIdentCore tag cs) = sanitizeIdentCore tag cs := by
  apply sanitizeIdentCore_fixed
  · exact sanitizeIdentCore_chars tag cs htag
  · intro c rest hcr
    have hne : sanitizeIdentCore tag cs ≠ [] := by rw [hcr]; simp
    have hstrip := sanitizeIdentCore_ne_nil_strip tag cs hne
    have hv := sanitizeIdentCore_valid tag cs htag htagHead hstrip
    rw [hcr] at hv
    exact isLowerIdent_head c rest hv
  · exact hlast
  · exact sanitizeIdentCore_length tag cs

theorem tbl_tag_class : ∀ c ∈ "tbl_".data, (c.isAlphanum || c = '_') = true := by decide

theorem col_tag_class : ∀ c ∈ "col_".data, (c.isAlphanum || c = '_') = true := by decide

theorem tbl_tag_head : ∃ u urest, "tbl_".data = u :: urest ∧ u.isAlpha = true :=
  ⟨'t', "bl_".data, by decide, by decide⟩

theorem col_tag_head : ∃ u urest, "col_".data = u :: urest ∧ u.isAlpha = true :=
  ⟨'c', "ol_".data, by decide, by decide⟩

/-- C1: counterexample — the claim promises a non-empty valid
identifier for every input (with the `tbl_`/`col_` prefix applied when
the input sanitizes to the empty string), but an input consisting only
of unsafe characters sanitizes to the empty string: the prefixing
guard `if sanitized and ...` skips the empty string, so no prefix is
ever applied to it. -/
theorem c1_sanitize_counterexample :
    _sanitize_table_name "!!!" = "" ∧ _sanitize_column_name "!!!" = ""
      ∧ isLowerIdent "" = false := by
  exact ⟨rfl, rfl, rfl⟩

/-- C1 (amended): both sanitizers always return a string of length at
most 64; whenever the substituted-and-stripped input is non-empty the
result is a non-empty identifier matching `^[a-z][a-z0-9_]*$`; when
the input sanitizes to the empty string the result is the empty
string (no prefix is applied). -/
theorem c1_sanitize_valid_unless_strip_empty (s : String) :
    (_sanitize_table_name s).length ≤ 64
    ∧ (_sanitize_column_name s).length ≤ 64
    ∧ (stripUnderscores (pySubUnsafe s.data) ≠ [] →
        isLowerIdent (_sanitize_table_name s) = true
          ∧ isLowerIdent (_sanitize_column_name s) = true)
    ∧ (stripUnderscores (pySubUnsafe s.data) = [] →
        _sanitize_table_name s = "" ∧ _sanitize_column_name s = "") := by
  refine ⟨sanitizeIdentCore_length "tbl_".data s.data,
    sanitizeIdentCore_length "col_".data s.data, ?_, ?_⟩
  · intro h
    exact ⟨sanitizeIdentCore_valid "tbl_".data s.data tbl_tag_class tbl_tag_head h,
      sanitizeIdentCore_valid "col_".data s.data col_tag_class col_tag_head h⟩
  · intro h
    exact ⟨congrArg String.mk (sanitizeIdentCore_of_strip_empty "tbl_".data s.data h),
      congrArg String.mk (sanitizeIdentCore_of_strip_empty "col_".data s.data h)⟩

/-- Witness for C1 (amended) at the concrete input `"My File (2024)"`. -/
theorem c1_sanitize_witness :
    stripUnderscores (pySubUnsafe "My File (2024)".data) ≠ []
    ∧ isLowerIdent (_sanitize_table_name "My File (2024)") = true
    ∧ isLowerIdent (_sanitize_column_name "My File (2024)") = true := by
  have h : stripUnderscores (pySubUnsafe "My File (2024)".data) ≠ [] := by decide
  exact ⟨h, ((c1_sanitize_valid_unless_strip_empty "My File (2024)").2.2.1 h).1,
    ((c1_sanitize_valid_unless_strip_empty "My File (2024)").2.2.1 h).2⟩

/-- C2: counterexample — sanitization is not idempotent on inputs
whose sanitized form is produced by the 64-character truncation: the
input below (a digit, 58 letters, an underscore, 10 letters) is
prefixed to 74 characters and truncated to 64 ending in `'_'`; a
second application strips that trailing underscore, producing a
63-character string. -/
theorem c2_idempotence_counterexample :
    _sanitize_table_name (_sanitize_table_name
        "1aaaaaaaaaaaaaaaaaaaaaaaaaaaaaaaaaaaaaaaaaaaaaaaaaaaaaaaaaa_bbbbbbbbbb")
      ≠ _sanitize_table_name
        "1aaaaaaaaaaaaaaaaaaaaaaaaaaaaaaaaaaaaaaaaaaaaaaaaaaaaaaaaaa_bbbbbbbbbb"
    ∧ _sanitize_column_name (_sanitize_column_name
        "1aaaaaaaaaaaaaaaaaaaaaaaaaaaaaaaaaaaaaaaaaaaaaaaaaaaaaaaaaa_bbbbbbbbbb")
      ≠ _sanitize_column_name
        "1aaaaaaaaaaaaaaaaaaaaaaaaaaaaaaaaaaaaaaaaaaaaaaaaaaaaaaaaaa_bbbbbbbbbb" := by
  exact ⟨by decide, by decide⟩

/-- C2 (amended): for every input whose sanitized form does not end
in an underscore (in particular every input the 64-character
truncation leaves underscore-free at the end), a second application
of the sanitizer is the identity: `sanitize(sanitize(x)) ==
sanitize(x)`, for both the table-name and column-name sanitizer. -/
theorem c2_sanitize_idempotent_unless_trailing_underscore (s : String) :
    ((_sanitize_table_name s).data.getLast? ≠ some '_' →
      _sanitize_table_name (_sanitize_table_name s) = _sanitize_table_name s)
    ∧ ((_sanitize_column_name s).data.getLast? ≠ some '_' →
      _sanitize_column_name (_sanitize_column_name s) = _sanitize_column_name s) := by
  constructor
  · intro h
    exact congrArg String.mk
      (sanitizeIdentCore_idem "tbl_".data tbl_tag_class tbl_tag_head s.data h)
  · intro h
    exact congrArg String.mk
      (sanitizeIdentCore_idem "col_".data col_tag_class col_tag_head s.data h)

/-- Witness for C2 (amended) at the concrete input `"My File (2024)"`. -/
theorem c2_sanitize_idempotent_witness :
    (_sanitize_table_name "My File (2024)").data.getLast? ≠ some '_'
    ∧ _sanitize_table_name (_sanitize_table_name "My File (2024)")
        = _sanitize_table_name "My File (2024)" := by
  have h : (_sanitize_table_name "My File (2024)").data.getLast? ≠ some '_' := by decide
  exact ⟨h, (c2_sanitize_idempotent_unless_trailing_underscore "My File (2024)").1 h⟩

/-- C3: for every SQL string with no `limit` substring
(case-insensitively), a non-aggregate query is executed with
` LIMIT top_k*2` appended and its normalized results truncated to
`top_k` rows, while a query containing an aggregate marker is
executed with ` LIMIT 100` appended and its normalized results
returned in full. -/
theorem c3_executor_limit_policy (runSql : String → Option (List PyRow))
    (sql : String) (top_k : Nat) (rows : List PyRow)
    (hnl : sqlHasLimit sql = false) :
    (isAggregationSql sql = false →
      executorFinalSql sql top_k = pyRstripSemi sql ++ " LIMIT " ++ toString (top_k * 2)
      ∧ (runSql (executorFinalSql sql top_k) = some rows →
          _execute_sql_query runSql sql top_k = (rows.map normalizeRow).take top_k))
    ∧ (isAggregationSql sql = true →
      executorFinalSql sql top_k = pyRstripSemi sql ++ " LIMIT 100"
      ∧ (runSql (executorFinalSql sql top_k) = some rows →
          _execute_sql_query runSql sql top_k = rows.map normalizeRow)) := by
  constructor
  · intro hagg
    have hfinal : executorFinalSql sql top_k
        = pyRstripSemi sql ++ " LIMIT " ++ toString (top_k * 2) := by
      unfold executorFinalSql
      rw [if_pos (by simp [hagg, hnl])]
    refine ⟨hfinal, fun hrun => ?_⟩
    unfold _execute_sql_query
    rw [hrun]
    simp [hagg]
  · intro hagg
    have hfinal : executorFinalSql sql top_k = pyRstripSemi sql ++ " LIMIT 100" := by
      unfold executorFinalSql
      rw [if_neg (by simp [hagg]), if_pos (by simp [hagg, hnl])]
    refine ⟨hfinal, fun hrun => ?_⟩
    unfold _execute_sql_query
    rw [hrun]
    simp [hagg]

/-- Witness for C3 at two concrete queries (one row-listing, one
aggregate). -/
theorem c3_executor_witness :
    sqlHasLimit "SELECT * FROM t" = false
    ∧ isAggregationSql "SELECT * FROM t" = false
    ∧ executorFinalSql "SELECT * FROM t" 1 = "SELECT * FROM t LIMIT 2"
    ∧ _execute_sql_query
        (fun _ => some [[("a", PyVal.vInt 1)], [("a", PyVal.vInt 2)], [("a", PyVal.vInt 3)]])
        "SELECT * FROM t" 1 = [[("a", PyVal.vInt 1)]]
    ∧ sqlHasLimit "SELECT SUM(x) FROM t;" = false
    ∧ isAggregationSql "SELECT SUM(x) FROM t;" = true
    ∧ executorFinalSql "SELECT SUM(x) FROM t;" 1 = "SELECT SUM(x) FROM t LIMIT 100"
    ∧ _execute_sql_query
        (fun _ => some [[("s", PyVal.vInt 7)], [("s", PyVal.vInt 9)]])
        "SELECT SUM(x) FROM t;" 1 = [[("s", PyVal.vInt 7)], [("s", PyVal.vInt 9)]] := by
  have h1 : sqlHasLimit "SELECT * FROM t" = false := by decide
  have h2 : isAggregationSql "SELECT * FROM t" = false := by decide
  have h3 : sqlHasLimit "SELECT SUM(x) FROM t;" = false := by decide
  have h4 : isAggregationSql "SELECT SUM(x) FROM t;" = true := by decide
  have c1 := (c3_executor_limit_policy
    (fun _ => some [[("a", PyVal.vInt 1)], [("a", PyVal.vInt 2)], [("a", PyVal.vInt 3)]])
    "SELECT * FROM t" 1 [[("a", PyVal.vInt 1)], [("a", PyVal.vInt 2)], [("a", PyVal.vInt 3)]]
    h1).1 h2
  have c2 := (c3_executor_limit_policy
    (fun _ => some [[("s", PyVal.vInt 7)], [("s", PyVal.vInt 9)]])
    "SELECT SUM(x) FROM t;" 1 [[("s", PyVal.vInt 7)], [("s", PyVal.vInt 9)]]
    h3).2 h4
  refine ⟨h1, h2, ?_, ?_, h3, h4, ?_, ?_⟩
  · rw [c1.1]
    decide
  · rw [c1.2 rfl]
    decide
  · rw [c2.1]
    decide
  · rw [c2.2 rfl]
    decide

theorem query_service_eval (d : QueryDeps) (query : String) (top_k : Nat) (uid : String)
    (mode : String) (tn : Option String) (tbl sql : String)
    (hq : pyStrip query ≠ "") (huid : uid ≠ "")
    (hres : _get_table_name_by_id_or_latest d.uploads uid tn = some tbl)
    (hsql : d.genSql query (d.schemaOf tbl) tbl = some sql) (hne : sql ≠ "") :
    query_service d query top_k (some uid) mode tn =
      { status := true
        message := "Query processed successfully"
        data := some
          { answer := d.genAnswer query (_execute_sql_query d.runSql sql top_k)
              (d.schemaOf tbl) mode
            results := if (_execute_sql_query d.runSql sql top_k).isEmpty then none
              else some (_execute_sql_query d.runSql sql top_k)
            sql_query := sql
            table_name := tbl
            mode := mode
            visualization_data := if mode = "graph" then
              _generate_visualization_data (_execute_sql_query d.runSql sql top_k) query sql
              else none
            table_data := if mode = "table" then
              _generate_table_data (_execute_sql_query d.runSql sql top_k) else none } } := by
  unfold query_service
  rw [if_neg (by
    rintro (h | h)
    · subst h
      exact hq rfl
    · exact hq h)]
  rw [if_neg (by simp [huid])]
  simp only [Option.getD_some]
  rw [hres]
  simp only []
  rw [hsql]
  simp only []
  rw [if_neg hne]

/-- C4: a SQL execution error is swallowed — the executor returns the
empty result list and `query_service` still returns a `status=true`
envelope with `results = None`, identical to the envelope produced
when the same query legitimately matches zero rows. -/
theorem c4_execution_error_swallowed (d : QueryDeps) (query : String) (top_k : Nat)
    (uid : String) (mode : String) (tn : Option String) (tbl sql : String)
    (hq : pyStrip query ≠ "") (huid : uid ≠ "")
    (hres : _get_table_name_by_id_or_latest d.uploads uid tn = some tbl)
    (hsql : d.genSql query (d.schemaOf tbl) tbl = some sql) (hne : sql ≠ "")
    (hrun : d.runSql (executorFinalSql sql top_k) = none) :
    _execute_sql_query d.runSql sql top_k = []
    ∧ (query_service d query top_k (some uid) mode tn).status = true
    ∧ ((query_service d query top_k (some uid) mode tn).data.map
        (fun r => r.results)) = some none
    ∧ query_service d query top_k (some uid) mode tn
        = query_service { d with runSql := fun _ => some [] } query top_k (some uid) mode tn := by
  have hexec : _execute_sql_query d.runSql sql top_k = [] := by
    unfold _execute_sql_query
    rw [hrun]
  have hexec2 : _execute_sql_query (fun _ => some ([] : List PyRow)) sql top_k = [] := by
    unfold _execute_sql_query
    by_cases hA : isAggregationSql sql = true
    · simp [hA]
    · simp [hA]
  have h1 := query_service_eval d query top_k uid mode tn tbl sql hq huid hres hsql hne
  have h2 := query_service_eval { d with runSql := fun _ => some [] } query top_k uid mode tn
    tbl sql hq huid hres hsql hne
  rw [hexec] at h1
  rw [hexec2] at h2
  refine ⟨hexec, ?_, ?_, ?_⟩
  · rw [h1]
  · rw [h1]
    rfl
  · rw [h1, h2]

/-- Witness for C4 at a concrete request whose database oracle raises. -/
theorem c4_execution_error_witness :
    _execute_sql_query (fun _ => none) "SELECT * FROM `t1`" 5 = []
    ∧ (query_service
        { moduleKey := some "k"
          uploads := [{ id := "f1", user_id := "u1", filename := "a.csv"
                        table_name := "t1", created_at := 1 }]
          schemaOf := fun _ => "schema"
          genSql := fun _ _ _ => some "SELECT * FROM `t1`"
          runSql := fun _ => none
          genAnswer := fun _ _ _ _ => "ans" }
        "show all challans" 5 (some "u1") "text" (some "t1")).status = true := by
  have h := c4_execution_error_swallowed
    { moduleKey := some "k"
      uploads := [{ id := "f1", user_id := "u1", filename := "a.csv"
                    table_name := "t1", created_at := 1 }]
      schemaOf := fun _ => "schema"
      genSql := fun _ _ _ => some "SELECT * FROM `t1`"
      runSql := fun _ => none
      genAnswer := fun _ _ _ _ => "ans" }
    "show all challans" 5 "u1" "text" (some "t1") "t1" "SELECT * FROM `t1`"
    (by decide) (by decide) (by decide) rfl (by decide) rfl
  exact ⟨h.1, h.2.1⟩

/-- C5: the translator returns null exactly when a listed failure
condition holds (no credential, configuration raises, no candidate
model initializes, empty response, or the invocation throws) — in
particular it never fabricates a SQL string in those cases — and on a
null translation the orchestrator returns `status=false` with a
message that distinguishes the not-configured case from the
configured-but-failed case. -/
theorem c5_generation_failure_policy :
    (∀ d : GenDeps, (_generate_sql_query d = none ↔ genFailureConds d))
    ∧ (∀ (d : QueryDeps) (query : String) (top_k : Nat) (uid : String) (mode : String)
        (tn : Option String) (tbl : String),
        pyStrip query ≠ "" → uid ≠ "" →
        _get_table_name_by_id_or_latest d.uploads uid tn = some tbl →
        d.genSql query (d.schemaOf tbl) tbl = none →
        query_service d query top_k (some uid) mode tn =
          { status := false
            message := if d.moduleKey = none then msgKeyNotConfigured else msgGenerationFailed
            data := none })
    ∧ msgKeyNotConfigured ≠ msgGenerationFailed := by
  refine ⟨?_, ?_, by decide⟩
  · intro d
    rcases d with ⟨mk, ek, cfg, inits, outc⟩
    unfold _generate_sql_query genFailureConds
    cases mk with
    | none =>
      cases ek with
      | none => simp
      | some e =>
        cases cfg with
        | true => simp
        | false =>
          simp only [reduceCtorEq, false_and, and_true, and_false, false_or, if_neg,
            not_false_eq_true, Option.some.injEq]
          cases h : inits.any id with
          | false => simp [h]
          | true =>
            simp only [h, Bool.true_eq_false, not_true_eq_false, if_neg, if_false,
              Bool.not_true, false_or]
            cases outc with
            | gThrows => simp
            | gEmpty => simp
            | gText t => simp
    | some k =>
      simp only [reduceCtorEq, false_and, false_or, Option.some.injEq]
      cases h : inits.any id with
      | false => simp [h]
      | true =>
        simp only [h, Bool.true_eq_false, false_or]
        cases outc with
        | gThrows => simp
        | gEmpty => simp
        | gText t => simp
  · intro d query top_k uid mode tn tbl hq huid hres hsql
    unfold query_service
    rw [if_neg (by
      rintro (h | h)
      · subst h
        exact hq rfl
      · exact hq h)]
    rw [if_neg (by simp [huid])]
    simp only [Option.getD_some]
    rw [hres]
    simp only []
    rw [hsql]

/-- Witness for C5: a concrete failing translator input and a concrete
orchestrator request with a null translation. -/
theorem c5_generation_failure_witness :
    _generate_sql_query
      { moduleKey := none, envKey := none, configureThrows := false
        modelInits := [true], outcome := GenOutcome.gText "SELECT 1" } = none
    ∧ query_service
        { moduleKey := none
          uploads := [{ id := "f1", user_id := "u1", filename := "a.csv"
                        table_name := "t1", created_at := 1 }]
          schemaOf := fun _ => "schema"
          genSql := fun _ _ _ => none
          runSql := fun _ => some []
          genAnswer := fun _ _ _ _ => "ans" }
        "show all challans" 5 (some "u1") "text" (some "t1")
      = { status := false, message := msgKeyNotConfigured, data := none } := by
  constructor
  · exact (c5_generation_failure_policy.1 _).mpr (Or.inl ⟨rfl, rfl⟩)
  · have h := c5_generation_failure_policy.2.1
      { moduleKey := none
        uploads := [{ id := "f1", user_id := "u1", filename := "a.csv"
                      table_name := "t1", created_at := 1 }]
        schemaOf := fun _ => "schema"
        genSql := fun _ _ _ => none
        runSql := fun _ => some []
        genAnswer := fun _ _ _ _ => "ans" }
      "show all challans" 5 "u1" "text" (some "t1") "t1"
      (by decide) (by decide) (by decide) rfl
    rw [h]
    rfl

/-- C6: the grouped-aggregate example — rows
`[{"city": "Indore", "total": 500}, {"city": "Mumbai", "total": 300}]`
with a `GROUP BY` SQL and no percentage or date/time cues shape to
labels `["Indore", "Mumbai"]`, values `[500.0, 300.0]` and chart type
`bar_chart`. -/
theorem c6_grouped_bar_chart_example :
    _generate_visualization_data
      [[("city", PyVal.vStr "Indore"), ("total", PyVal.vInt 500)],
       [("city", PyVal.vStr "Mumbai"), ("total", PyVal.vInt 300)]]
      "Total challan amount by city"
      "SELECT `city`, SUM(CAST(`total` AS DECIMAL(10,2))) AS total FROM `t` GROUP BY `city`"
    = some (VizData.chart "bar_chart" ["Indore", "Mumbai"] [500, 300] "City" "Total"
        "Total challan amount by city") := by
  decide

theorem all_zero_any_pos_false (l : List Rat) (h : l.all (fun v => v = 0) = true) :
    l.any (fun v => 0 < v) = false := by
  rw [List.any_eq_false]
  intro x hx
  have hx0 := of_decide_eq_true (List.all_eq_true.mp h x hx)
  simp [hx0]

/-- C7: counterexample — the all-zero fallback never discovers a
column whose numeric values arrived as text: with the chosen value
column `total` yielding all zeros and an alternate column `amount`
holding the text `"₹1,200"` (which the first-pass cleaner parses to
`1200.0`), the shaper still returns `None`, because the discovery
scan only accepts values that are already `int`/`float`/
float-convertible and skips strings. -/
theorem c7_discovery_counterexample :
    _generate_visualization_data
      [[("city", PyVal.vStr "Indore"), ("total", PyVal.vStr "N/A"),
        ("amount", PyVal.vStr "₹1,200")]]
      "total by city" "select city, total from t group by city" = none
    ∧ cleanNumFull "₹1,200" = "1200"
    ∧ pyFloatOfString "1200" = some 1200 := by
  refine ⟨by decide, by decide, ?_⟩
  have h : pyFloatOfString "1200" = some (((1200 : Nat) : Rat) * ratPow10 0) := rfl
  rw [h]
  norm_num [ratPow10]

/-- C7 (amended): for every non-empty grouped result (`GROUP BY` in
the lowered SQL, at least two columns), when the chosen value column
yields all zeros the shaper attempts to discover an alternate value
column — but only among columns whose values are already numeric-typed
(`int`/`float`/float-convertible), never among text columns — and
returns `None` whenever that discovery fails, regardless of any
numeric text the other columns may hold. -/
theorem c7_all_zero_no_numeric_alternate_yields_none (first : PyRow) (rest : List PyRow)
    (query sql : String)
    (hgb : pyContains (pyLower sql) "group by" = true)
    (hkeys : 2 ≤ (first.map Prod.fst).length)
    (hzero : ((first :: rest).map (fun r => firstPassNumeric (vizRawValue r
        (((first.map Prod.fst).drop 1).headD ((first.map Prod.fst).headD ""))))).all
        (fun v => v = 0) = true)
    (halt : findAltKey (first :: rest) (first.map Prod.fst)
        ((first.map Prod.fst).headD "") = none) :
    _generate_visualization_data (first :: rest) query sql = none := by
  unfold _generate_visualization_data
  simp only []
  rw [if_pos hgb, if_pos hkeys]
  unfold vizGroupCore
  simp only []
  set keys := first.map Prod.fst with hK
  set ckey := keys.headD "" with hC
  set vkey0 := (keys.drop 1).headD (keys.headD "") with hV
  set values0 := (first :: rest).map (fun r => firstPassNumeric (vizRawValue r vkey0)) with hV0
  set labels0 := (first :: rest).map (fun r => vizLabel r ckey) with hL0
  have hlen : 0 < (first :: rest).length := by simp
  rw [if_pos (⟨hzero, hlen⟩ :
    values0.all (fun v => v = 0) = true ∧ 0 < (first :: rest).length)]
  rw [halt]
  simp only []
  rw [if_neg (show ¬ labels0.length ≠ values0.length by
    rw [hL0, hV0]
    simp)]
  rw [if_neg (show ¬ (0 < labels0.length ∧ 0 < values0.length
      ∧ values0.any (fun v => 0 < v) = true) by
    rintro ⟨-, -, hany⟩
    rw [all_zero_any_pos_false _ hzero] at hany
    exact Bool.false_ne_true hany)]

/-- Witness for C7 (amended) at the counterexample's concrete input. -/
theorem c7_all_zero_witness :
    pyContains (pyLower "select city, total from t group by city") "group by" = true
    ∧ findAltKey
        [[("city", PyVal.vStr "Indore"), ("total", PyVal.vStr "N/A"),
          ("amount", PyVal.vStr "₹1,200")]]
        ["city", "total", "amount"] "city" = none
    ∧ _generate_visualization_data
        [[("city", PyVal.vStr "Indore"), ("total", PyVal.vStr "N/A"),
          ("amount", PyVal.vStr "₹1,200")]]
        "show totals" "select city, total from t group by city" = none := by
  refine ⟨by decide, by decide, ?_⟩
  exact c7_all_zero_no_numeric_alternate_yields_none
    [("city", PyVal.vStr "Indore"), ("total", PyVal.vStr "N/A"),
      ("amount", PyVal.vStr "₹1,200")] []
    "show totals" "select city, total from t group by city"
    (by decide) (by decide) (by decide) (by decide)

theorem string_data_inj (a b : String) (h : a.data = b.data) : a = b := by
  cases a
  cases b
  exact congrArg String.mk h

/-- C8: counterexample — the message for a table owned by a different
user is byte-identical to the message for a table that does not exist
at all (for the same requested name), for both the query and the
delete operation: the caller cannot distinguish the authorization
failure from the not-found failure. -/
theorem c8_identical_messages_counterexample :
    (query_service
        { moduleKey := some "k"
          uploads := [{ id := "f1", user_id := "alice", filename := "a.csv"
                        table_name := "t", created_at := 1 }]
          schemaOf := fun _ => "s", genSql := fun _ _ _ => some "q"
          runSql := fun _ => some [], genAnswer := fun _ _ _ _ => "a" }
        "show" 5 (some "bob") "text" (some "t")).message
      = (query_service
          { moduleKey := some "k", uploads := []
            schemaOf := fun _ => "s", genSql := fun _ _ _ => some "q"
            runSql := fun _ => some [], genAnswer := fun _ _ _ _ => "a" }
          "show" 5 (some "bob") "text" (some "t")).message
    ∧ (query_service
        { moduleKey := some "k"
          uploads := [{ id := "f1", user_id := "alice", filename := "a.csv"
                        table_name := "t", created_at := 1 }]
          schemaOf := fun _ => "s", genSql := fun _ _ _ => some "q"
          runSql := fun _ => some [], genAnswer := fun _ _ _ _ => "a" }
        "show" 5 (some "bob") "text" (some "t")).status = false
    ∧ (delete_file_service
        [{ id := "f1", user_id := "alice", filename := "a.csv"
           table_name := "t", created_at := 1 }] true "f1" (some "bob")).message
      = (delete_file_service [] true "f1" (some "bob")).message
    ∧ (delete_file_service
        [{ id := "f1", user_id := "alice", filename := "a.csv"
           table_name := "t", created_at := 1 }] true "f1" (some "bob")).status = false := by
  exact ⟨rfl, rfl, rfl, rfl⟩

/-- C8 (amended): a caller-supplied table name that exists but is
owned by a different user yields `status=false` with a combined
"not found or you don't have permission" message — the same message
the code produces when the table does not exist at all — and that
combined message is distinct from the "nothing uploaded yet" message;
`delete_file_service` behaves the same way with its own combined
message. -/
theorem c8_not_owned_combined_message (d : QueryDeps) (query : String) (top_k : Nat)
    (uid : String) (mode : String) (t : String)
    (hq : pyStrip query ≠ "") (huid : uid ≠ "") (ht : t ≠ "")
    (hexists : ∃ u ∈ d.uploads, u.table_name = t ∧ u.user_id ≠ uid)
    (hnotowned : ∀ u ∈ d.uploads, ¬ (u.table_name = t ∧ u.user_id = uid)) :
    query_service d query top_k (some uid) mode (some t)
      = { status := false, message := msgTableNotFound t, data := none }
    ∧ msgTableNotFound t ≠ msgNoUpload
    ∧ (∀ (uploads : List Upload) (dropOk : Bool) (fid uid2 : String),
        uid2 ≠ "" →
        (∃ u ∈ uploads, u.id = fid ∧ u.user_id ≠ uid2) →
        (∀ u ∈ uploads, ¬ (u.id = fid ∧ u.user_id = uid2)) →
        delete_file_service uploads dropOk fid (some uid2)
          = { status := false, message := msgFileNotFound, data := none }) := by
  refine ⟨?_, ?_, ?_⟩
  · unfold query_service
    rw [if_neg (by
      rintro (h | h)
      · subst h
        exact hq rfl
      · exact hq h)]
    rw [if_neg (by simp [huid])]
    simp only [Option.getD_some]
    have hres : _get_table_name_by_id_or_latest d.uploads uid (some t) = none := by
      unfold _get_table_name_by_id_or_latest
      simp only []
      rw [if_pos ht]
      rw [if_neg (by
        rw [Bool.not_eq_true, List.any_eq_false]
        intro u hu
        simp only [Bool.and_eq_true, decide_eq_true_eq, not_and]
        intro h1 h2
        exact hnotowned u hu ⟨h1, h2⟩)]
    rw [hres]
    simp only []
    rw [if_pos ht]
  · intro h
    have hT : (msgTableNotFound t).data.head? = some 'T' := by
      unfold msgTableNotFound
      rw [String.data_append, String.data_append]
      rfl
    rw [h] at hT
    exact absurd hT (by decide)
  · intro uploads dropOk fid uid2 huid2 hex hno
    unfold delete_file_service
    rw [if_neg (by simp [huid2])]
    have hfind : uploads.find?
        (fun u => u.id = fid && u.user_id = (some uid2).getD "") = none := by
      rw [List.find?_eq_none]
      intro u hu
      simp only [Bool.and_eq_true, decide_eq_true_eq, not_and]
      intro h1 h2
      exact hno u hu ⟨h1, h2⟩
    rw [hfind]

/-- Witness for C8 (amended): `alice` owns table `t` / file `f1`,
the caller is `bob`. -/
theorem c8_not_owned_witness :
    query_service
      { moduleKey := some "k"
        uploads := [{ id := "f1", user_id := "alice", filename := "a.csv"
                      table_name := "t", created_at := 1 }]
        schemaOf := fun _ => "s", genSql := fun _ _ _ => some "q"
        runSql := fun _ => some [], genAnswer := fun _ _ _ _ => "a" }
      "show" 5 (some "bob") "text" (some "t")
      = { status := false, message := msgTableNotFound "t", data := none }
    ∧ msgTableNotFound "t" ≠ msgNoUpload
    ∧ delete_file_service
        [{ id := "f1", user_id := "alice", filename := "a.csv"
           table_name := "t", created_at := 1 }] true "f1" (some "bob")
      = { status := false, message := msgFileNotFound, data := none } := by
  have h := c8_not_owned_combined_message
    { moduleKey := some "k"
      uploads := [{ id := "f1", user_id := "alice", filename := "a.csv"
                    table_name := "t", created_at := 1 }]
      schemaOf := fun _ => "s", genSql := fun _ _ _ => some "q"
      runSql := fun _ => some [], genAnswer := fun _ _ _ _ => "a" }
    "show" 5 "bob" "text" "t" (by decide) (by decide) (by decide)
    ⟨{ id := "f1", user_id := "alice", filename := "a.csv"
       table_name := "t", created_at := 1 }, by decide, by decide, by decide⟩
    (by decide)
  exact ⟨h.1, h.2.1,
    h.2.2 [{ id := "f1", user_id := "alice", filename := "a.csv"
             table_name := "t", created_at := 1 }] true "f1" "bob" (by decide)
      ⟨{ id := "f1", user_id := "alice", filename := "a.csv"
         table_name := "t", created_at := 1 }, by decide, by decide, by decide⟩
      (by decide)⟩

/-- C9: counterexample — two ingests of the same filename at two
distinct instants inside the same wall-clock second (different
microseconds, as concurrent uploads would produce) generate identical
table names, because the `%Y%m%d_%H%M%S` timestamp has only second
precision; the names are not distinct and the tables collide. -/
theorem c9_same_second_collision :
    ({ sec := 1760264410, micro := 0 } : Instant)
        ≠ { sec := 1760264410, micro := 500000 }
    ∧ uploadTableName "data.csv" { sec := 1760264410, micro := 0 }
        = uploadTableName "data.csv" { sec := 1760264410, micro := 500000 } := by
  exact ⟨by decide, rfl⟩

/-- C9 (amended): table names generated for the same filename are
distinct whenever the second-precision timestamps differ, and
identical whenever the wall-clock second is the same — so re-uploads
in different seconds never collide, while same-second (concurrent)
ingests of one filename do. -/
theorem c9_names_distinct_iff_seconds_differ (filename : String) (t1 t2 : Instant) :
    (strftimeYmdHMS t1 ≠ strftimeYmdHMS t2 →
      uploadTableName filename t1 ≠ uploadTableName filename t2)
    ∧ (t1.sec = t2.sec → uploadTableName filename t1 = uploadTableName filename t2) := by
  constructor
  · intro h heq
    apply h
    have hd := congrArg String.data heq
    unfold uploadTableName at hd
    rw [String.data_append, String.data_append, String.data_append,
      String.data_append, String.data_append, String.data_append] at hd
    have := List.append_cancel_left hd
    exact string_data_inj _ _ this
  · intro h
    unfold uploadTableName strftimeYmdHMS
    rw [h]

/-- Witness for C9 (amended): timestamps one day apart give distinct
names. -/
theorem c9_names_distinct_witness :
    strftimeYmdHMS { sec := 0, micro := 0 } ≠ strftimeYmdHMS { sec := 86400, micro := 0 }
    ∧ uploadTableName "data.csv" { sec := 0, micro := 0 }
        ≠ uploadTableName "data.csv" { sec := 86400, micro := 0 } := by
  have h : strftimeYmdHMS { sec := 0, micro := 0 }
      ≠ strftimeYmdHMS { sec := 86400, micro := 0 } := by decide
  exact ⟨h, (c9_names_distinct_iff_seconds_differ "data.csv"
    { sec := 0, micro := 0 } { sec := 86400, micro := 0 }).1 h⟩

/-- C10: CSV ingest skips the first 7 lines and reads the next record
as the header; preprocessing keeps exactly the whitelisted challan
columns (in whitelist order), silently dropping every other column; a
CSV containing none of the whitelisted columns yields an empty frame
and the upload is rejected with status=false and "File is empty after
processing"; `.xlsx` uploads keep all their columns. -/
theorem c10_csv_whitelist_policy :
    (∀ (skipped : List (List String)) (header : List String) (rest : List (List String)),
      skipped.length = 7 →
      _read_csv_with_preprocessing (skipped ++ header :: rest)
        = Except.ok (_preprocess_csv_data { columns := header, rows := rest }))
    ∧ (∀ df : DataFrame,
        (_preprocess_csv_data df).columns
          = challanRequiredColumns.filter (fun c => df.columns.contains c)
        ∧ ∀ c ∈ (_preprocess_csv_data df).columns, c ∈ challanRequiredColumns)
    ∧ (∀ (filename : String) (file : FileOracle) (now : Instant)
        (createOk insertThrows : Bool) (errText : String)
        (skipped : List (List String)) (header : List String) (rest : List (List String)),
        pyLower (pyPathSuffix filename) = ".csv" →
        file.asCsv = Except.ok (skipped ++ header :: rest) →
        skipped.length = 7 →
        (∀ c ∈ challanRequiredColumns, c ∉ header) →
        upload_excel_service filename file now createOk insertThrows errText
          = { status := false, message := "File is empty after processing", data := none })
    ∧ (∀ (filename : String) (file : FileOracle) (now : Instant)
        (errText : String) (df : DataFrame),
        pyLower (pyPathSuffix filename) = ".xlsx" →
        file.asExcel = Except.ok df →
        dfEmpty df = false →
        (upload_excel_service filename file now true false errText).data
          = some { table_name := uploadTableName filename now
                   rows_processed := df.rows.length
                   rows_stored := df.rows.length
                   columns := df.columns }) := by
  have hread : ∀ (skipped : List (List String)) (header : List String)
      (rest : List (List String)), skipped.length = 7 →
      _read_csv_with_preprocessing (skipped ++ header :: rest)
        = Except.ok (_preprocess_csv_data { columns := header, rows := rest }) := by
    intro skipped header rest hlen
    unfold _read_csv_with_preprocessing
    rw [← hlen, List.drop_left]
  refine ⟨hread, ?_, ?_, ?_⟩
  · intro df
    constructor
    · rfl
    · intro c hc
      exact (List.mem_filter.mp hc).1
  · intro filename file now createOk insertThrows errText skipped header rest
      hext hcsv hlen hnone
    unfold upload_excel_service
    rw [hext]
    rw [if_pos rfl]
    rw [hcsv]
    simp only []
    rw [hread skipped header rest hlen]
    simp only []
    have hfilter : challanRequiredColumns.filter (fun c => header.contains c) = [] := by
      rw [List.filter_eq_nil_iff]
      intro a ha
      simp [List.contains, hnone a ha]
    unfold uploadWithFrame
    rw [if_pos (by
      unfold _preprocess_csv_data dfEmpty
      simp only [hfilter]
      rfl)]
  · intro filename file now errText df hext hexcel hne
    unfold upload_excel_service
    rw [hext]
    rw [if_neg (by decide)]
    rw [if_pos (Or.inl rfl)]
    rw [hexcel]
    simp only []
    unfold uploadWithFrame
    rw [if_neg (by rw [hne]; exact Bool.false_ne_true)]
    rw [if_neg (by
      intro hcols
      unfold dfEmpty at hne
      rw [hcols] at hne
      simp at hne)]
    rw [if_neg (by simp)]
    rw [if_neg Bool.false_ne_true]

/-- Witness for C10: a `.csv` upload whose header (after the 7
skipped lines) holds no whitelisted column is rejected as empty, and
a `.xlsx` upload keeps its columns. -/
theorem c10_csv_whitelist_witness :
    upload_excel_service "data.csv"
      { asCsv := Except.ok (List.replicate 7 [] ++ [["Foo", "Bar"], ["1", "2"]])
        asExcel := Except.error "n/a" }
      { sec := 0, micro := 0 } true false "e"
      = { status := false, message := "File is empty after processing", data := none }
    ∧ (upload_excel_service "data.xlsx"
        { asCsv := Except.error "n/a"
          asExcel := Except.ok { columns := ["A", "B"], rows := [["1", "2"]] } }
        { sec := 0, micro := 0 } true false "e").data
      = some { table_name := uploadTableName "data.xlsx" { sec := 0, micro := 0 }
               rows_processed := 1
               rows_stored := 1
               columns := ["A", "B"] } := by
  constructor
  · exact c10_csv_whitelist_policy.2.2.1 "data.csv"
      { asCsv := Except.ok (List.replicate 7 [] ++ [["Foo", "Bar"], ["1", "2"]])
        asExcel := Except.error "n/a" }
      { sec := 0, micro := 0 } true false "e"
      (List.replicate 7 []) ["Foo", "Bar"] [["1", "2"]]
      (by decide) rfl (by decide) (by decide)
  · exact c10_csv_whitelist_policy.2.2.2 "data.xlsx"
      { asCsv := Except.error "n/a"
        asExcel := Except.ok { columns := ["A", "B"], rows := [["1", "2"]] } }
      { sec := 0, micro := 0 } "e" { columns := ["A", "B"], rows := [["1", "2"]] }
      (by decide) rfl (by decide)
